import Mathlib

/-
Verification of the hint subsystem of the fermium SDL binding
(src/hints.rs): the hint-name string constants, the hint priority
type, and the hint store contract described in the accompanying
design document.
-/

set_option maxHeartbeats 1000000

namespace Fermium

/-- Embedding of the Rust helper that turns a string literal into a
NUL-terminated byte string: it appends a single 0 byte to the UTF-8
bytes of the literal (all literals in the file are ASCII, so code
points coincide with bytes). -/
def c_str (s : String) : List Nat := (s.data.map Char.toNat) ++ [0]

def SDL_HINT_FRAMEBUFFER_ACCELERATION : List Nat := c_str ("SDL_FRAMEBUFFER_ACCELERATION")
def SDL_HINT_RENDER_DRIVER : List Nat := c_str ("SDL_RENDER_DRIVER")
def SDL_HINT_RENDER_OPENGL_SHADERS : List Nat := c_str ("SDL_HINT_RENDER_OPENGL_SHADERS")
def SDL_HINT_RENDER_DIRECT3D_THREADSAFE : List Nat := c_str ("SDL_RENDER_DIRECT3D_THREADSAFE")
def SDL_HINT_RENDER_DIRECT3D11_DEBUG : List Nat := c_str ("SDL_RENDER_DIRECT3D11_DEBUG")
def SDL_HINT_RENDER_SCALE_QUALITY : List Nat := c_str ("SDL_RENDER_SCALE_QUALITY")
def SDL_HINT_RENDER_VSYNC : List Nat := c_str ("SDL_RENDER_VSYNC")
def SDL_HINT_VIDEO_ALLOW_SCREENSAVER : List Nat := c_str ("SDL_VIDEO_ALLOW_SCREENSAVER")
def SDL_HINT_VIDEO_EXTERNAL_CONTEXT : List Nat := c_str ("SDL_VIDEO_EXTERNAL_CONTEXT")
def SDL_HINT_VIDEO_X11_XVIDMODE : List Nat := c_str ("SDL_VIDEO_X11_XVIDMODE")
def SDL_HINT_VIDEO_X11_XINERAMA : List Nat := c_str ("SDL_VIDEO_X11_XINERAMA")
def SDL_HINT_VIDEO_X11_XRANDR : List Nat := c_str ("SDL_VIDEO_X11_XRANDR")
def SDL_HINT_VIDEO_X11_WINDOW_VISUALID : List Nat := c_str ("SDL_VIDEO_X11_WINDOW_VISUALID")
def SDL_HINT_VIDEO_X11_NET_WM_PING : List Nat := c_str ("SDL_VIDEO_X11_NET_WM_PING")
def SDL_HINT_VIDEO_X11_NET_WM_BYPASS_COMPOSITOR : List Nat := c_str ("SDL_VIDEO_X11_NET_WM_BYPASS_COMPOSITOR")
def SDL_HINT_VIDEO_X11_FORCE_EGL : List Nat := c_str ("SDL_VIDEO_X11_FORCE_EGL")
def SDL_HINT_WINDOW_FRAME_USABLE_WHILE_CURSOR_HIDDEN : List Nat := c_str ("SDL_WINDOW_FRAME_USABLE_WHILE_CURSOR_HIDDEN")
def SDL_HINT_WINDOWS_INTRESOURCE_ICON : List Nat := c_str ("SDL_WINDOWS_INTRESOURCE_ICON")
def SDL_HINT_WINDOWS_INTRESOURCE_ICON_SMALL : List Nat := c_str ("SDL_WINDOWS_INTRESOURCE_ICON_SMALL")
def SDL_HINT_WINDOWS_ENABLE_MESSAGELOOP : List Nat := c_str ("SDL_WINDOWS_ENABLE_MESSAGELOOP")
def SDL_HINT_GRAB_KEYBOARD : List Nat := c_str ("SDL_GRAB_KEYBOARD")
def SDL_HINT_MOUSE_DOUBLE_CLICK_TIME : List Nat := c_str ("SDL_MOUSE_DOUBLE_CLICK_TIME")
def SDL_HINT_MOUSE_DOUBLE_CLICK_RADIUS : List Nat := c_str ("SDL_MOUSE_DOUBLE_CLICK_RADIUS")
def SDL_HINT_MOUSE_NORMAL_SPEED_SCALE : List Nat := c_str ("SDL_MOUSE_NORMAL_SPEED_SCALE")
def SDL_HINT_MOUSE_RELATIVE_SPEED_SCALE : List Nat := c_str ("SDL_MOUSE_RELATIVE_SPEED_SCALE")
def SDL_HINT_MOUSE_RELATIVE_SCALING : List Nat := c_str ("SDL_MOUSE_RELATIVE_SCALING")
def SDL_HINT_MOUSE_RELATIVE_MODE_WARP : List Nat := c_str ("SDL_MOUSE_RELATIVE_MODE_WARP")
def SDL_HINT_MOUSE_FOCUS_CLICKTHROUGH : List Nat := c_str ("SDL_MOUSE_FOCUS_CLICKTHROUGH")
def SDL_HINT_TOUCH_MOUSE_EVENTS : List Nat := c_str ("SDL_TOUCH_MOUSE_EVENTS")
def SDL_HINT_MOUSE_TOUCH_EVENTS : List Nat := c_str ("SDL_MOUSE_TOUCH_EVENTS")
def SDL_HINT_VIDEO_MINIMIZE_ON_FOCUS_LOSS : List Nat := c_str ("SDL_VIDEO_MINIMIZE_ON_FOCUS_LOSS")
def SDL_HINT_IDLE_TIMER_DISABLED : List Nat := c_str ("SDL_IOS_IDLE_TIMER_DISABLED")
def SDL_HINT_ORIENTATIONS : List Nat := c_str ("SDL_IOS_ORIENTATIONS")
def SDL_HINT_APPLE_TV_CONTROLLER_UI_EVENTS : List Nat := c_str ("SDL_APPLE_TV_CONTROLLER_UI_EVENTS")
def SDL_HINT_APPLE_TV_REMOTE_ALLOW_ROTATION : List Nat := c_str ("SDL_APPLE_TV_REMOTE_ALLOW_ROTATION")
def SDL_HINT_IOS_HIDE_HOME_INDICATOR : List Nat := c_str ("SDL_IOS_HIDE_HOME_INDICATOR")
def SDL_HINT_ACCELEROMETER_AS_JOYSTICK : List Nat := c_str ("SDL_ACCELEROMETER_AS_JOYSTICK")
def SDL_HINT_TV_REMOTE_AS_JOYSTICK : List Nat := c_str ("SDL_TV_REMOTE_AS_JOYSTICK")
def SDL_HINT_XINPUT_ENABLED : List Nat := c_str ("SDL_XINPUT_ENABLED")
def SDL_HINT_XINPUT_USE_OLD_JOYSTICK_MAPPING : List Nat := c_str ("SDL_XINPUT_USE_OLD_JOYSTICK_MAPPING")
def SDL_HINT_GAMECONTROLLERTYPE : List Nat := c_str ("SDL_GAMECONTROLLERTYPE")
def SDL_HINT_GAMECONTROLLERCONFIG : List Nat := c_str ("SDL_GAMECONTROLLERCONFIG")
def SDL_HINT_GAMECONTROLLERCONFIG_FILE : List Nat := c_str ("SDL_GAMECONTROLLERCONFIG_FILE")
def SDL_HINT_GAMECONTROLLER_IGNORE_DEVICES : List Nat := c_str ("SDL_GAMECONTROLLER_IGNORE_DEVICES")
def SDL_HINT_GAMECONTROLLER_IGNORE_DEVICES_EXCEPT : List Nat := c_str ("SDL_GAMECONTROLLER_IGNORE_DEVICES_EXCEPT")
def SDL_HINT_GAMECONTROLLER_USE_BUTTON_LABELS : List Nat := c_str ("SDL_GAMECONTROLLER_USE_BUTTON_LABELS")
def SDL_HINT_JOYSTICK_ALLOW_BACKGROUND_EVENTS : List Nat := c_str ("SDL_JOYSTICK_ALLOW_BACKGROUND_EVENTS")
def SDL_HINT_JOYSTICK_HIDAPI : List Nat := c_str ("SDL_JOYSTICK_HIDAPI")
def SDL_HINT_JOYSTICK_HIDAPI_PS4 : List Nat := c_str ("SDL_JOYSTICK_HIDAPI_PS4")
def SDL_HINT_JOYSTICK_HIDAPI_PS5 : List Nat := c_str ("SDL_JOYSTICK_HIDAPI_PS5")
def SDL_HINT_JOYSTICK_HIDAPI_PS4_RUMBLE : List Nat := c_str ("SDL_JOYSTICK_HIDAPI_PS4_RUMBLE")
def SDL_HINT_JOYSTICK_HIDAPI_STEAM : List Nat := c_str ("SDL_JOYSTICK_HIDAPI_STEAM")
def SDL_HINT_JOYSTICK_HIDAPI_SWITCH : List Nat := c_str ("SDL_JOYSTICK_HIDAPI_SWITCH")
def SDL_HINT_JOYSTICK_HIDAPI_XBOX : List Nat := c_str ("SDL_JOYSTICK_HIDAPI_XBOX")
def SDL_HINT_JOYSTICK_HIDAPI_CORRELATE_XINPUT : List Nat := c_str ("SDL_JOYSTICK_HIDAPI_CORRELATE_XINPUT")
def SDL_HINT_JOYSTICK_HIDAPI_GAMECUBE : List Nat := c_str ("SDL_JOYSTICK_HIDAPI_GAMECUBE")
def SDL_HINT_ENABLE_STEAM_CONTROLLERS : List Nat := c_str ("SDL_ENABLE_STEAM_CONTROLLERS")
def SDL_HINT_JOYSTICK_RAWINPUT : List Nat := c_str ("SDL_JOYSTICK_RAWINPUT")
def SDL_HINT_JOYSTICK_THREAD : List Nat := c_str ("SDL_JOYSTICK_THREAD")
def SDL_HINT_LINUX_JOYSTICK_DEADZONES : List Nat := c_str ("SDL_LINUX_JOYSTICK_DEADZONES")
def SDL_HINT_ALLOW_TOPMOST : List Nat := c_str ("SDL_ALLOW_TOPMOST")
def SDL_HINT_TIMER_RESOLUTION : List Nat := c_str ("SDL_TIMER_RESOLUTION")
def SDL_HINT_QTWAYLAND_CONTENT_ORIENTATION : List Nat := c_str ("SDL_QTWAYLAND_CONTENT_ORIENTATION")
def SDL_HINT_QTWAYLAND_WINDOW_FLAGS : List Nat := c_str ("SDL_QTWAYLAND_WINDOW_FLAGS")
def SDL_HINT_THREAD_STACK_SIZE : List Nat := c_str ("SDL_THREAD_STACK_SIZE")
def SDL_HINT_THREAD_PRIORITY_POLICY : List Nat := c_str ("SDL_THREAD_PRIORITY_POLICY")
def SDL_HINT_THREAD_FORCE_REALTIME_TIME_CRITICAL : List Nat := c_str ("SDL_THREAD_FORCE_REALTIME_TIME_CRITICAL")
def SDL_HINT_VIDEO_HIGHDPI_DISABLED : List Nat := c_str ("SDL_VIDEO_HIGHDPI_DISABLED")
def SDL_HINT_MAC_CTRL_CLICK_EMULATE_RIGHT_CLICK : List Nat := c_str ("SDL_MAC_CTRL_CLICK_EMULATE_RIGHT_CLICK")
def SDL_HINT_VIDEO_WIN_D3DCOMPILER : List Nat := c_str ("SDL_VIDEO_WIN_D3DCOMPILER")
def SDL_HINT_VIDEO_WINDOW_SHARE_PIXEL_FORMAT : List Nat := c_str ("SDL_VIDEO_WINDOW_SHARE_PIXEL_FORMAT")
def SDL_HINT_WINRT_PRIVACY_POLICY_URL : List Nat := c_str ("SDL_WINRT_PRIVACY_POLICY_URL")
def SDL_HINT_WINRT_PRIVACY_POLICY_LABEL : List Nat := c_str ("SDL_WINRT_PRIVACY_POLICY_LABEL")
def SDL_HINT_WINRT_HANDLE_BACK_BUTTON : List Nat := c_str ("SDL_WINRT_HANDLE_BACK_BUTTON")
def SDL_HINT_VIDEO_MAC_FULLSCREEN_SPACES : List Nat := c_str ("SDL_VIDEO_MAC_FULLSCREEN_SPACES")
def SDL_HINT_MAC_BACKGROUND_APP : List Nat := c_str ("SDL_MAC_BACKGROUND_APP")
def SDL_HINT_ANDROID_APK_EXPANSION_MAIN_FILE_VERSION : List Nat := c_str ("SDL_ANDROID_APK_EXPANSION_MAIN_FILE_VERSION")
def SDL_HINT_ANDROID_APK_EXPANSION_PATCH_FILE_VERSION : List Nat := c_str ("SDL_ANDROID_APK_EXPANSION_PATCH_FILE_VERSION")
def SDL_HINT_IME_INTERNAL_EDITING : List Nat := c_str ("SDL_IME_INTERNAL_EDITING")
def SDL_HINT_ANDROID_TRAP_BACK_BUTTON : List Nat := c_str ("SDL_ANDROID_TRAP_BACK_BUTTON")
def SDL_HINT_ANDROID_BLOCK_ON_PAUSE : List Nat := c_str ("SDL_ANDROID_BLOCK_ON_PAUSE")
def SDL_HINT_ANDROID_BLOCK_ON_PAUSE_PAUSEAUDIO : List Nat := c_str ("SDL_ANDROID_BLOCK_ON_PAUSE_PAUSEAUDIO")
def SDL_HINT_RETURN_KEY_HIDES_IME : List Nat := c_str ("SDL_RETURN_KEY_HIDES_IME")
def SDL_HINT_EMSCRIPTEN_KEYBOARD_ELEMENT : List Nat := c_str ("SDL_EMSCRIPTEN_KEYBOARD_ELEMENT")
def SDL_HINT_EMSCRIPTEN_ASYNCIFY : List Nat := c_str ("SDL_EMSCRIPTEN_ASYNCIFY")
def SDL_HINT_NO_SIGNAL_HANDLERS : List Nat := c_str ("SDL_NO_SIGNAL_HANDLERS")
def SDL_HINT_WINDOWS_NO_CLOSE_ON_ALT_F4 : List Nat := c_str ("SDL_WINDOWS_NO_CLOSE_ON_ALT_F4")
def SDL_HINT_BMP_SAVE_LEGACY_FORMAT : List Nat := c_str ("SDL_BMP_SAVE_LEGACY_FORMAT")
def SDL_HINT_WINDOWS_DISABLE_THREAD_NAMING : List Nat := c_str ("SDL_WINDOWS_DISABLE_THREAD_NAMING")
def SDL_HINT_RPI_VIDEO_LAYER : List Nat := c_str ("SDL_RPI_VIDEO_LAYER")
def SDL_HINT_VIDEO_DOUBLE_BUFFER : List Nat := c_str ("SDL_VIDEO_DOUBLE_BUFFER")
def SDL_HINT_OPENGL_ES_DRIVER : List Nat := c_str ("SDL_OPENGL_ES_DRIVER")
def SDL_HINT_AUDIO_RESAMPLING_MODE : List Nat := c_str ("SDL_AUDIO_RESAMPLING_MODE")
def SDL_HINT_AUDIO_CATEGORY : List Nat := c_str ("SDL_AUDIO_CATEGORY")
def SDL_HINT_RENDER_BATCHING : List Nat := c_str ("SDL_RENDER_BATCHING")
def SDL_HINT_AUTO_UPDATE_JOYSTICKS : List Nat := c_str ("SDL_AUTO_UPDATE_JOYSTICKS")
def SDL_HINT_AUTO_UPDATE_SENSORS : List Nat := c_str ("SDL_AUTO_UPDATE_SENSORS")
def SDL_HINT_EVENT_LOGGING : List Nat := c_str ("SDL_EVENT_LOGGING")
def SDL_HINT_WAVE_RIFF_CHUNK_SIZE : List Nat := c_str ("SDL_WAVE_RIFF_CHUNK_SIZE")
def SDL_HINT_WAVE_TRUNCATION : List Nat := c_str ("SDL_WAVE_TRUNCATION")
def SDL_HINT_WAVE_FACT_CHUNK : List Nat := c_str ("SDL_WAVE_FACT_CHUNK")
def SDL_HINT_DISPLAY_USABLE_BOUNDS : List Nat := c_str ("SDL_DISPLAY_USABLE_BOUNDS")
def SDL_HINT_AUDIO_DEVICE_APP_NAME : List Nat := c_str ("SDL_AUDIO_DEVICE_APP_NAME")
def SDL_HINT_AUDIO_DEVICE_STREAM_NAME : List Nat := c_str ("SDL_AUDIO_DEVICE_STREAM_NAME")
def SDL_HINT_PREFERRED_LOCALES : List Nat := c_str ("SDL_PREFERRED_LOCALES")
def SDL_HINT_AUDIO_INCLUDE_MONITORS : List Nat := c_str ("SDL_AUDIO_INCLUDE_MONITORS")
def SDL_HINT_AUDIO_DEVICE_STREAM_ROLE : List Nat := c_str ("SDL_AUDIO_DEVICE_STREAM_ROLE")
def allHintConstants : List (List Nat) := [
  SDL_HINT_FRAMEBUFFER_ACCELERATION,
  SDL_HINT_RENDER_DRIVER,
  SDL_HINT_RENDER_OPENGL_SHADERS,
  SDL_HINT_RENDER_DIRECT3D_THREADSAFE,
  SDL_HINT_RENDER_DIRECT3D11_DEBUG,
  SDL_HINT_RENDER_SCALE_QUALITY,
  SDL_HINT_RENDER_VSYNC,
  SDL_HINT_VIDEO_ALLOW_SCREENSAVER,
  SDL_HINT_VIDEO_EXTERNAL_CONTEXT,
  SDL_HINT_VIDEO_X11_XVIDMODE,
  SDL_HINT_VIDEO_X11_XINERAMA,
  SDL_HINT_VIDEO_X11_XRANDR,
  SDL_HINT_VIDEO_X11_WINDOW_VISUALID,
  SDL_HINT_VIDEO_X11_NET_WM_PING,
  SDL_HINT_VIDEO_X11_NET_WM_BYPASS_COMPOSITOR,
  SDL_HINT_VIDEO_X11_FORCE_EGL,
  SDL_HINT_WINDOW_FRAME_USABLE_WHILE_CURSOR_HIDDEN,
  SDL_HINT_WINDOWS_INTRESOURCE_ICON,
  SDL_HINT_WINDOWS_INTRESOURCE_ICON_SMALL,
  SDL_HINT_WINDOWS_ENABLE_MESSAGELOOP,
  SDL_HINT_GRAB_KEYBOARD,
  SDL_HINT_MOUSE_DOUBLE_CLICK_TIME,
  SDL_HINT_MOUSE_DOUBLE_CLICK_RADIUS,
  SDL_HINT_MOUSE_NORMAL_SPEED_SCALE,
  SDL_HINT_MOUSE_RELATIVE_SPEED_SCALE,
  SDL_HINT_MOUSE_RELATIVE_SCALING,
  SDL_HINT_MOUSE_RELATIVE_MODE_WARP,
  SDL_HINT_MOUSE_FOCUS_CLICKTHROUGH,
  SDL_HINT_TOUCH_MOUSE_EVENTS,
  SDL_HINT_MOUSE_TOUCH_EVENTS,
  SDL_HINT_VIDEO_MINIMIZE_ON_FOCUS_LOSS,
  SDL_HINT_IDLE_TIMER_DISABLED,
  SDL_HINT_ORIENTATIONS,
  SDL_HINT_APPLE_TV_CONTROLLER_UI_EVENTS,
  SDL_HINT_APPLE_TV_REMOTE_ALLOW_ROTATION,
  SDL_HINT_IOS_HIDE_HOME_INDICATOR,
  SDL_HINT_ACCELEROMETER_AS_JOYSTICK,
  SDL_HINT_TV_REMOTE_AS_JOYSTICK,
  SDL_HINT_XINPUT_ENABLED,
  SDL_HINT_XINPUT_USE_OLD_JOYSTICK_MAPPING,
  SDL_HINT_GAMECONTROLLERTYPE,
  SDL_HINT_GAMECONTROLLERCONFIG,
  SDL_HINT_GAMECONTROLLERCONFIG_FILE,
  SDL_HINT_GAMECONTROLLER_IGNORE_DEVICES,
  SDL_HINT_GAMECONTROLLER_IGNORE_DEVICES_EXCEPT,
  SDL_HINT_GAMECONTROLLER_USE_BUTTON_LABELS,
  SDL_HINT_JOYSTICK_ALLOW_BACKGROUND_EVENTS,
  SDL_HINT_JOYSTICK_HIDAPI,
  SDL_HINT_JOYSTICK_HIDAPI_PS4,
  SDL_HINT_JOYSTICK_HIDAPI_PS5,
  SDL_HINT_JOYSTICK_HIDAPI_PS4_RUMBLE,
  SDL_HINT_JOYSTICK_HIDAPI_STEAM,
  SDL_HINT_JOYSTICK_HIDAPI_SWITCH,
  SDL_HINT_JOYSTICK_HIDAPI_XBOX,
  SDL_HINT_JOYSTICK_HIDAPI_CORRELATE_XINPUT,
  SDL_HINT_JOYSTICK_HIDAPI_GAMECUBE,
  SDL_HINT_ENABLE_STEAM_CONTROLLERS,
  SDL_HINT_JOYSTICK_RAWINPUT,
  SDL_HINT_JOYSTICK_THREAD,
  SDL_HINT_LINUX_JOYSTICK_DEADZONES,
  SDL_HINT_ALLOW_TOPMOST,
  SDL_HINT_TIMER_RESOLUTION,
  SDL_HINT_QTWAYLAND_CONTENT_ORIENTATION,
  SDL_HINT_QTWAYLAND_WINDOW_FLAGS,
  SDL_HINT_THREAD_STACK_SIZE,
  SDL_HINT_THREAD_PRIORITY_POLICY,
  SDL_HINT_THREAD_FORCE_REALTIME_TIME_CRITICAL,
  SDL_HINT_VIDEO_HIGHDPI_DISABLED,
  SDL_HINT_MAC_CTRL_CLICK_EMULATE_RIGHT_CLICK,
  SDL_HINT_VIDEO_WIN_D3DCOMPILER,
  SDL_HINT_VIDEO_WINDOW_SHARE_PIXEL_FORMAT,
  SDL_HINT_WINRT_PRIVACY_POLICY_URL,
  SDL_HINT_WINRT_PRIVACY_POLICY_LABEL,
  SDL_HINT_WINRT_HANDLE_BACK_BUTTON,
  SDL_HINT_VIDEO_MAC_FULLSCREEN_SPACES,
  SDL_HINT_MAC_BACKGROUND_APP,
  SDL_HINT_ANDROID_APK_EXPANSION_MAIN_FILE_VERSION,
  SDL_HINT_ANDROID_APK_EXPANSION_PATCH_FILE_VERSION,
  SDL_HINT_IME_INTERNAL_EDITING,
  SDL_HINT_ANDROID_TRAP_BACK_BUTTON,
  SDL_HINT_ANDROID_BLOCK_ON_PAUSE,
  SDL_HINT_ANDROID_BLOCK_ON_PAUSE_PAUSEAUDIO,
  SDL_HINT_RETURN_KEY_HIDES_IME,
  SDL_HINT_EMSCRIPTEN_KEYBOARD_ELEMENT,
  SDL_HINT_EMSCRIPTEN_ASYNCIFY,
  SDL_HINT_NO_SIGNAL_HANDLERS,
  SDL_HINT_WINDOWS_NO_CLOSE_ON_ALT_F4,
  SDL_HINT_BMP_SAVE_LEGACY_FORMAT,
  SDL_HINT_WINDOWS_DISABLE_THREAD_NAMING,
  SDL_HINT_RPI_VIDEO_LAYER,
  SDL_HINT_VIDEO_DOUBLE_BUFFER,
  SDL_HINT_OPENGL_ES_DRIVER,
  SDL_HINT_AUDIO_RESAMPLING_MODE,
  SDL_HINT_AUDIO_CATEGORY,
  SDL_HINT_RENDER_BATCHING,
  SDL_HINT_AUTO_UPDATE_JOYSTICKS,
  SDL_HINT_AUTO_UPDATE_SENSORS,
  SDL_HINT_EVENT_LOGGING,
  SDL_HINT_WAVE_RIFF_CHUNK_SIZE,
  SDL_HINT_WAVE_TRUNCATION,
  SDL_HINT_WAVE_FACT_CHUNK,
  SDL_HINT_DISPLAY_USABLE_BOUNDS,
  SDL_HINT_AUDIO_DEVICE_APP_NAME,
  SDL_HINT_AUDIO_DEVICE_STREAM_NAME,
  SDL_HINT_PREFERRED_LOCALES,
  SDL_HINT_AUDIO_INCLUDE_MONITORS,
  SDL_HINT_AUDIO_DEVICE_STREAM_ROLE]

/-- Checks that a byte string begins with the four bytes of the text
SDL underscore, that is 83, 68, 76, 95. -/
def startsWithSDL : List Nat → Bool
  | 83 :: 68 :: 76 :: 95 :: _ => true
  | _ => false

/-- Checks that a byte string is a valid C string constant: it ends
with exactly one NUL byte and holds no NUL byte earlier. -/
def isCString : List Nat → Bool
  | [] => false
  | [b] => b == 0
  | b :: rest => b != 0 && isCString rest


/-- Embedding of the priority type from the source: a transparent
wrapper around a machine integer, compared by the wrapped value (the
derived ordering on the Rust struct compares its single field). -/
structure SDL_HintPriority where
  val : Int
deriving DecidableEq

instance : LE SDL_HintPriority := ⟨fun a b => a.val ≤ b.val⟩

instance : LT SDL_HintPriority := ⟨fun a b => a.val < b.val⟩

instance (a b : SDL_HintPriority) : Decidable (a ≤ b) :=
  inferInstanceAs (Decidable (a.val ≤ b.val))

instance (a b : SDL_HintPriority) : Decidable (a < b) :=
  inferInstanceAs (Decidable (a.val < b.val))

/-- Low priority, used by default. -/
def SDL_HINT_DEFAULT : SDL_HintPriority := ⟨0⟩

/-- Medium priority. -/
def SDL_HINT_NORMAL : SDL_HintPriority := ⟨1⟩

/-- High priority. -/
def SDL_HINT_OVERRIDE : SDL_HintPriority := ⟨2⟩

/-- Modelled from the spec: the stored state of one hint. The store
itself is not under src, which only declares the extern functions, so
it is modelled from the design document: a current value together
with the priority at which it was written. -/
structure HintEntry where
  value : String
  priority : SDL_HintPriority
deriving DecidableEq

/-- Modelled from the spec: one callback registration, keyed by hint
name, callback identity and user context; the two identities are
abstracted as numbers since the store only stores and compares them. -/
structure CallbackReg where
  name : String
  callback : Nat
  userdata : Nat
deriving DecidableEq

/-- Modelled from the spec: one synchronous callback invocation,
recording which callback ran and the hint name, old value and new
value passed to it; an absent value stands for a null pointer. -/
structure Invocation where
  callback : Nat
  userdata : Nat
  name : String
  oldValue : Option String
  newValue : Option String
deriving DecidableEq

/-- Modelled from the spec: the process-wide hint store, a mapping
from hint name to entry plus the callback registrations in
registration order. -/
structure HintStore where
  entries : List (String × HintEntry)
  callbacks : List CallbackReg
deriving DecidableEq

/-- The store at library initialization: no entries, no callbacks. -/
def emptyHintStore : HintStore := ⟨[], []⟩

/-- Association-list lookup of the entry stored under a name. -/
def lookupEntry : List (String × HintEntry) → String → Option HintEntry
  | [], _ => none
  | (k, e) :: rest, n => if k = n then some e else lookupEntry rest n

/-- Association-list update: replaces the entry stored under the name,
or appends a fresh binding when none exists. -/
def setEntry : List (String × HintEntry) → String → HintEntry → List (String × HintEntry)
  | [], n, e => [(n, e)]
  | (k, old) :: rest, n, e =>
    if k = n then (n, e) :: rest else (k, old) :: setEntry rest n e

/-- The invocations produced by notifying, in registration order,
every callback registered for the given name of a change from the old
value to the new value. -/
def fireCallbacks (regs : List CallbackReg) (name : String)
    (oldV newV : Option String) : List Invocation :=
  match regs with
  | [] => []
  | r :: rest =>
    if r.name = name then
      ⟨r.callback, r.userdata, name, oldV, newV⟩ :: fireCallbacks rest name oldV newV
    else fireCallbacks rest name oldV newV

/-- Modelled from the spec: SDL_SetHintWithPriority, whose
implementation lives behind the extern declaration. An empty name is
rejected. With no existing entry the write succeeds unconditionally;
with an existing entry it succeeds exactly when the new priority is
greater than or equal to the stored one. A successful write replaces
value and priority as one unit and synchronously notifies every
callback registered for the name with the old and the new value; a
failed write changes nothing and notifies nobody. The result is the
returned flag, the new store and the list of invocations. -/
def SDL_SetHintWithPriority (st : HintStore) (name value : String)
    (priority : SDL_HintPriority) : Bool × HintStore × List Invocation :=
  if name = "" then (false, st, [])
  else
    match lookupEntry st.entries name with
    | none =>
      (true, { st with entries := setEntry st.entries name ⟨value, priority⟩ },
        fireCallbacks st.callbacks name none (some value))
    | some e =>
      if e.priority ≤ priority then
        (true, { st with entries := setEntry st.entries name ⟨value, priority⟩ },
          fireCallbacks st.callbacks name (some e.value) (some value))
      else (false, st, [])

/-- Modelled from the spec: SDL_SetHint, a write at normal priority;
the gate an existing entry must pass is that its stored priority is at
most normal. -/
def SDL_SetHint (st : HintStore) (name value : String) :
    Bool × HintStore × List Invocation :=
  if name = "" then (false, st, [])
  else
    match lookupEntry st.entries name with
    | none =>
      (true, { st with entries := setEntry st.entries name ⟨value, SDL_HINT_NORMAL⟩ },
        fireCallbacks st.callbacks name none (some value))
    | some e =>
      if e.priority ≤ SDL_HINT_NORMAL then
        (true, { st with entries := setEntry st.entries name ⟨value, SDL_HINT_NORMAL⟩ },
          fireCallbacks st.callbacks name (some e.value) (some value))
      else (false, st, [])

/-- Modelled from the spec: SDL_GetHint returns the current value of
the hint when set; the unchanged store is returned alongside to make
the absence of side effects explicit. -/
def SDL_GetHint (st : HintStore) (name : String) : Option String × HintStore :=
  ((lookupEntry st.entries name).map HintEntry.value, st)

/-- Modelled from the spec: SDL_GetHintBoolean returns the supplied
default when the hint is unset; a stored value of "0" reads as false
and a stored value of "1" as true. The design document leaves the
reading of other tokens open (its stated open question); they are
modelled as truthy here, which no claim depends on. -/
def SDL_GetHintBoolean (st : HintStore) (name : String) (default_value : Bool) :
    Bool × HintStore :=
  (match lookupEntry st.entries name with
    | none => default_value
    | some e => if e.value = "0" then false else if e.value = "1" then true else true,
   st)

/-- Modelled from the spec: SDL_AddHintCallback appends the
registration and immediately invokes the new callback exactly once,
passing the current value of the hint as both the old and the new
value. -/
def SDL_AddHintCallback (st : HintStore) (name : String) (callback userdata : Nat) :
    HintStore × List Invocation :=
  ({ st with callbacks := st.callbacks ++ [⟨name, callback, userdata⟩] },
    [⟨callback, userdata, name, (lookupEntry st.entries name).map HintEntry.value,
      (lookupEntry st.entries name).map HintEntry.value⟩])

/-- Modelled from the spec: SDL_ClearHints removes every hint entry
and every callback registration and invokes no callback. -/
def SDL_ClearHints (_st : HintStore) : HintStore × List Invocation :=
  (emptyHintStore, [])


/-- One step of the prediction the spec makes for a sequence of
writes to one name: the accumulator keeps the value of the winning
call so far together with the running maximum priority; a new call
wins exactly when its priority is at least that maximum, a tie going
to the newer call. -/
def specStep (acc : Option (String × SDL_HintPriority))
    (c : String × SDL_HintPriority) : Option (String × SDL_HintPriority) :=
  match acc with
  | none => some c
  | some (w, q) => if q ≤ c.2 then some c else some (w, q)

/-- The final stored value the spec predicts for a sequence of writes
to one name: the value of the last call whose priority is greater than
or equal to every priority occurring up to and including that call. -/
def specFinalValue (calls : List (String × SDL_HintPriority)) : Option String :=
  (calls.foldl specStep none).map Prod.fst

/-- Runs a sequence of SetWithPriority calls on one name, keeping only
the evolving store. -/
def runSetCalls (name : String) (calls : List (String × SDL_HintPriority))
    (st : HintStore) : HintStore :=
  calls.foldl (fun s c => (SDL_SetHintWithPriority s name c.1 c.2).2.1) st

/-- How many invocations in a list went to the given callback
identity and context. -/
def countMatching : List Invocation → Nat → Nat → Nat
  | [], _, _ => 0
  | i :: rest, cb, ud =>
    (if i.callback = cb ∧ i.userdata = ud then 1 else 0) + countMatching rest cb ud

/-- How many registrations in a list match the given hint name,
callback identity and context. -/
def countRegs : List CallbackReg → String → Nat → Nat → Nat
  | [], _, _, _ => 0
  | r :: rest, name, cb, ud =>
    (if r.name = name ∧ r.callback = cb ∧ r.userdata = ud then 1 else 0) +
      countRegs rest name cb ud

theorem lookupEntry_setEntry_self (l : List (String × HintEntry)) (n : String)
    (e : HintEntry) : lookupEntry (setEntry l n e) n = some e := by
  induction l with
  | nil => simp [setEntry, lookupEntry]
  | cons kv rest ih =>
    obtain ⟨k, v⟩ := kv
    by_cases h : k = n <;> simp [setEntry, lookupEntry, h, ih]

theorem countMatching_fireCallbacks (regs : List CallbackReg) (name : String)
    (oldV newV : Option String) (cb ud : Nat) :
    countMatching (fireCallbacks regs name oldV newV) cb ud =
      countRegs regs name cb ud := by
  induction regs with
  | nil => rfl
  | cons r rest ih =>
    by_cases h1 : r.name = name
    · by_cases h2 : r.callback = cb ∧ r.userdata = ud
      · simp [fireCallbacks, countMatching, countRegs, h1, h2, ih]
      · simp [fireCallbacks, countMatching, countRegs, h1, h2, ih]
    · simp [fireCallbacks, countMatching, countRegs, h1, ih]

theorem countRegs_append (a b : List CallbackReg) (name : String) (cb ud : Nat) :
    countRegs (a ++ b) name cb ud =
      countRegs a name cb ud + countRegs b name cb ud := by
  induction a with
  | nil => simp [countRegs]
  | cons r rest ih => simp [countRegs, ih]; omega

theorem setStep_lookup (st : HintStore) (name v : String) (p : SDL_HintPriority)
    (hn : name ≠ "") (acc : Option (String × SDL_HintPriority))
    (h : lookupEntry st.entries name =
      Option.map (fun c => HintEntry.mk c.1 c.2) acc) :
    lookupEntry (SDL_SetHintWithPriority st name v p).2.1.entries name =
      Option.map (fun c => HintEntry.mk c.1 c.2) (specStep acc (v, p)) := by
  cases acc with
  | none =>
    simp only [Option.map_none'] at h
    simp [SDL_SetHintWithPriority, hn, h, specStep, lookupEntry_setEntry_self]
  | some wq =>
    obtain ⟨w, q⟩ := wq
    simp only [Option.map_some'] at h
    by_cases hq : q ≤ p
    · simp [SDL_SetHintWithPriority, hn, h, specStep, hq, lookupEntry_setEntry_self]
    · simp [SDL_SetHintWithPriority, hn, h, specStep, hq]

theorem runSetCalls_lookup (name : String) (hn : name ≠ "")
    (calls : List (String × SDL_HintPriority)) (st : HintStore)
    (acc : Option (String × SDL_HintPriority))
    (h : lookupEntry st.entries name =
      Option.map (fun c => HintEntry.mk c.1 c.2) acc) :
    lookupEntry (runSetCalls name calls st).entries name =
      Option.map (fun c => HintEntry.mk c.1 c.2) (calls.foldl specStep acc) := by
  induction calls generalizing st acc with
  | nil => exact h
  | cons c rest ih =>
    obtain ⟨v, p⟩ := c
    exact ih _ _ (setStep_lookup st name v p hn acc h)


/-- Claim C1: on a name that already holds an entry, SetWithPriority
succeeds exactly when the new priority is at least the stored one, and
a failed write returns failure, leaves the store unchanged and invokes
no callback. -/
theorem setHintWithPriority_existing (st : HintStore) (name value : String)
    (p : SDL_HintPriority) (e : HintEntry) (hn : name ≠ "")
    (he : lookupEntry st.entries name = some e) :
    ((SDL_SetHintWithPriority st name value p).1 = true ↔ e.priority ≤ p) ∧
    ((SDL_SetHintWithPriority st name value p).1 = false →
      (SDL_SetHintWithPriority st name value p).2.1 = st ∧
      (SDL_SetHintWithPriority st name value p).2.2 = []) := by
  by_cases hp : e.priority ≤ p <;>
    simp [SDL_SetHintWithPriority, hn, he, hp]

/-- Witness for C1 at a concrete store: a write at default priority
over an entry stored at normal priority fails and changes nothing. -/
theorem setHintWithPriority_existing_witness :
    ((SDL_SetHintWithPriority ⟨[(("X"), ⟨("a"), SDL_HINT_NORMAL⟩)], []⟩ ("X") ("b")
        SDL_HINT_DEFAULT).1 = true ↔
      (SDL_HINT_NORMAL : SDL_HintPriority) ≤ SDL_HINT_DEFAULT) ∧
    ((SDL_SetHintWithPriority ⟨[(("X"), ⟨("a"), SDL_HINT_NORMAL⟩)], []⟩ ("X") ("b")
        SDL_HINT_DEFAULT).1 = false →
      (SDL_SetHintWithPriority ⟨[(("X"), ⟨("a"), SDL_HINT_NORMAL⟩)], []⟩ ("X") ("b")
        SDL_HINT_DEFAULT).2.1 = ⟨[(("X"), ⟨("a"), SDL_HINT_NORMAL⟩)], []⟩ ∧
      (SDL_SetHintWithPriority ⟨[(("X"), ⟨("a"), SDL_HINT_NORMAL⟩)], []⟩ ("X") ("b")
        SDL_HINT_DEFAULT).2.2 = []) :=
  setHintWithPriority_existing ⟨[(("X"), ⟨("a"), SDL_HINT_NORMAL⟩)], []⟩ ("X") ("b")
    SDL_HINT_DEFAULT ⟨("a"), SDL_HINT_NORMAL⟩ (by decide) (by decide)

/-- Claim C2: the three priority constants wrap 0, 1 and 2, and under
the ordering of the priority type they are strictly ordered default,
then normal, then override. -/
theorem hintPriority_order :
    SDL_HINT_DEFAULT.val = 0 ∧ SDL_HINT_NORMAL.val = 1 ∧
    SDL_HINT_OVERRIDE.val = 2 ∧
    SDL_HINT_DEFAULT < SDL_HINT_NORMAL ∧ SDL_HINT_NORMAL < SDL_HINT_OVERRIDE ∧
    SDL_HINT_DEFAULT < SDL_HINT_OVERRIDE := by
  decide

/-- Claim C3: starting from the empty store, after any sequence of
SetWithPriority calls on one name the stored value is the value of the
last call whose priority was at least every priority seen up to and
including that call. -/
theorem setHintWithPriority_sequence (name : String) (hn : name ≠ "")
    (calls : List (String × SDL_HintPriority)) :
    (SDL_GetHint (runSetCalls name calls emptyHintStore) name).1 =
      specFinalValue calls := by
  have h := runSetCalls_lookup name hn calls emptyHintStore none rfl
  simp only [SDL_GetHint, specFinalValue, h]
  cases calls.foldl specStep none <;> simp

/-- Witness for C3 on the example scenario of the spec: normal "a",
then default "b", then override "c" ends with "c" stored. -/
theorem setHintWithPriority_sequence_witness :
    ((SDL_GetHint (runSetCalls ("X")
        [(("a"), SDL_HINT_NORMAL), (("b"), SDL_HINT_DEFAULT), (("c"), SDL_HINT_OVERRIDE)]
        emptyHintStore) ("X")).1 =
      specFinalValue
        [(("a"), SDL_HINT_NORMAL), (("b"), SDL_HINT_DEFAULT), (("c"), SDL_HINT_OVERRIDE)]) ∧
    specFinalValue
        [(("a"), SDL_HINT_NORMAL), (("b"), SDL_HINT_DEFAULT), (("c"), SDL_HINT_OVERRIDE)] =
      some ("c") :=
  ⟨setHintWithPriority_sequence ("X") (by decide)
      [(("a"), SDL_HINT_NORMAL), (("b"), SDL_HINT_DEFAULT), (("c"), SDL_HINT_OVERRIDE)],
    by decide⟩

/-- Claim C4: the naming table is one to one and every hint name
starts with the four characters S, D, L, underscore: every constant
value has that prefix and distinct constants hold pairwise distinct
values. -/
theorem hintConstants_table :
    allHintConstants.all startsWithSDL = true ∧ allHintConstants.Nodup := by
  exact ⟨by decide, by decide⟩

/-- Claim C5: a successful Set followed immediately by Get on the same
name returns the value just written. -/
theorem setHint_getHint (st : HintStore) (name v : String)
    (h : (SDL_SetHint st name v).1 = true) :
    (SDL_GetHint (SDL_SetHint st name v).2.1 name).1 = some v := by
  by_cases hn : name = ""
  · simp [SDL_SetHint, hn] at h
  · cases he : lookupEntry st.entries name with
    | none => simp [SDL_SetHint, hn, he, SDL_GetHint, lookupEntry_setEntry_self]
    | some e =>
      by_cases hp : e.priority ≤ SDL_HINT_NORMAL
      · simp [SDL_SetHint, hn, he, hp, SDL_GetHint, lookupEntry_setEntry_self]
      · simp [SDL_SetHint, hn, he, hp] at h

/-- Witness for C5: setting "X" to "a" in the empty store succeeds and
an immediate Get returns "a". -/
theorem setHint_getHint_witness :
    (SDL_GetHint (SDL_SetHint emptyHintStore ("X") ("a")).2.1 ("X")).1 = some ("a") :=
  setHint_getHint emptyHintStore ("X") ("a") (by decide)

/-- Claim C6: Set is observationally equivalent to SetWithPriority at
normal priority: same returned flag, same store, same invocations. -/
theorem setHint_eq_withPriority_normal (st : HintStore) (name value : String) :
    SDL_SetHint st name value =
      SDL_SetHintWithPriority st name value SDL_HINT_NORMAL := rfl

/-- Witness for C6 at a concrete input. -/
theorem setHint_eq_withPriority_normal_witness :
    SDL_SetHint emptyHintStore ("X") ("a") =
      SDL_SetHintWithPriority emptyHintStore ("X") ("a") SDL_HINT_NORMAL :=
  setHint_eq_withPriority_normal emptyHintStore ("X") ("a")

/-- Claim C7: GetBoolean leaves the store untouched, returns the
default when the hint is unset, false when the stored value is "0" and
true when it is "1". -/
theorem getHintBoolean_spec (st : HintStore) (name : String) (d : Bool) :
    (SDL_GetHintBoolean st name d).2 = st ∧
    (lookupEntry st.entries name = none → (SDL_GetHintBoolean st name d).1 = d) ∧
    (∀ e, lookupEntry st.entries name = some e → e.value = "0" →
      (SDL_GetHintBoolean st name d).1 = false) ∧
    (∀ e, lookupEntry st.entries name = some e → e.value = "1" →
      (SDL_GetHintBoolean st name d).1 = true) := by
  refine ⟨rfl, ?_, ?_, ?_⟩
  · intro h; simp [SDL_GetHintBoolean, h]
  · intro e he hv; simp [SDL_GetHintBoolean, he, hv]
  · intro e he hv; simp [SDL_GetHintBoolean, he, hv]

/-- Witness for C7 on three concrete stores: unset yields the default,
a stored "0" yields false, a stored "1" yields true. -/
theorem getHintBoolean_spec_witness :
    (SDL_GetHintBoolean emptyHintStore ("X") true).1 = true ∧
    (SDL_GetHintBoolean ⟨[(("X"), ⟨("0"), SDL_HINT_NORMAL⟩)], []⟩ ("X") true).1 = false ∧
    (SDL_GetHintBoolean ⟨[(("X"), ⟨("1"), SDL_HINT_NORMAL⟩)], []⟩ ("X") false).1 = true :=
  ⟨(getHintBoolean_spec emptyHintStore ("X") true).2.1 (by decide),
    (getHintBoolean_spec ⟨[(("X"), ⟨("0"), SDL_HINT_NORMAL⟩)], []⟩ ("X") true).2.2.1
      ⟨("0"), SDL_HINT_NORMAL⟩ (by decide) rfl,
    (getHintBoolean_spec ⟨[(("X"), ⟨("1"), SDL_HINT_NORMAL⟩)], []⟩ ("X") false).2.2.2
      ⟨("1"), SDL_HINT_NORMAL⟩ (by decide) rfl⟩

/-- Claim C8: AddCallback produces exactly one immediate invocation,
with the current value of the hint as both old and new value, and a
subsequent qualifying write to the name invokes the freshly registered
callback exactly once. -/
theorem addHintCallback_spec (st : HintStore) (name value : String) (cb ud : Nat)
    (p : SDL_HintPriority)
    (hfresh : countRegs st.callbacks name cb ud = 0) :
    (SDL_AddHintCallback st name cb ud).2 =
      [⟨cb, ud, name, (lookupEntry st.entries name).map HintEntry.value,
        (lookupEntry st.entries name).map HintEntry.value⟩] ∧
    ((SDL_SetHintWithPriority (SDL_AddHintCallback st name cb ud).1 name value p).1 =
        true →
      countMatching
        (SDL_SetHintWithPriority (SDL_AddHintCallback st name cb ud).1 name value p).2.2
        cb ud = 1) := by
  refine ⟨rfl, ?_⟩
  intro hs
  by_cases hn : name = ""
  · simp [SDL_SetHintWithPriority, hn] at hs
  · cases he : lookupEntry st.entries name with
    | none =>
      simp [SDL_SetHintWithPriority, SDL_AddHintCallback, hn, he,
        countMatching_fireCallbacks, countRegs_append, hfresh, countRegs]
    | some e =>
      by_cases hp : e.priority ≤ p
      · simp [SDL_SetHintWithPriority, SDL_AddHintCallback, hn, he, hp,
          countMatching_fireCallbacks, countRegs_append, hfresh, countRegs]
      · simp [SDL_SetHintWithPriority, SDL_AddHintCallback, hn, he, hp] at hs

/-- Witness for C8: registering callback 7 with context 3 on an unset
hint snapshots it once with absent old and new values, and a following
successful write notifies it exactly once. -/
theorem addHintCallback_spec_witness :
    (SDL_AddHintCallback emptyHintStore ("X") 7 3).2 =
      [⟨7, 3, ("X"), none, none⟩] ∧
    countMatching
      (SDL_SetHintWithPriority (SDL_AddHintCallback emptyHintStore ("X") 7 3).1
        ("X") ("a") SDL_HINT_NORMAL).2.2 7 3 = 1 :=
  ⟨(addHintCallback_spec emptyHintStore ("X") ("a") 7 3 SDL_HINT_NORMAL rfl).1,
    (addHintCallback_spec emptyHintStore ("X") ("a") 7 3 SDL_HINT_NORMAL rfl).2
      (by decide)⟩

/-- Claim C9: Clear empties the entries and the callback registry,
invokes no callback while doing so, and every later Get returns
absent. -/
theorem clearHints_spec (st : HintStore) :
    (SDL_ClearHints st).1.entries = [] ∧ (SDL_ClearHints st).1.callbacks = [] ∧
    (SDL_ClearHints st).2 = [] ∧
    ∀ name, (SDL_GetHint (SDL_ClearHints st).1 name).1 = none :=
  ⟨rfl, rfl, rfl, fun _ => rfl⟩

/-- Witness for C9 at a concrete populated store. -/
theorem clearHints_spec_witness :
    (SDL_ClearHints ⟨[(("X"), ⟨("a"), SDL_HINT_NORMAL⟩)], [⟨("X"), 7, 3⟩]⟩).1.entries = [] ∧
    (SDL_ClearHints ⟨[(("X"), ⟨("a"), SDL_HINT_NORMAL⟩)], [⟨("X"), 7, 3⟩]⟩).1.callbacks = [] ∧
    (SDL_ClearHints ⟨[(("X"), ⟨("a"), SDL_HINT_NORMAL⟩)], [⟨("X"), 7, 3⟩]⟩).2 = [] ∧
    ∀ name,
      (SDL_GetHint (SDL_ClearHints
        ⟨[(("X"), ⟨("a"), SDL_HINT_NORMAL⟩)], [⟨("X"), 7, 3⟩]⟩).1 name).1 = none :=
  clearHints_spec ⟨[(("X"), ⟨("a"), SDL_HINT_NORMAL⟩)], [⟨("X"), 7, 3⟩]⟩

/-- Claim C10: every hint name constant is a valid C string: its byte
string ends with exactly one NUL byte and holds no NUL byte in any
earlier position. -/
theorem hintConstants_cstring : allHintConstants.all isCString = true := by
  decide

end Fermium
